import Mathlib

/-!
Verification development for the HoloCubic firmware input / display-refresh
subsystem.  The definitions below are shallow embeddings of the C++ sources:

  * `IMU.update`, `encoder_read`, `IMU.initLoop` — imu.cpp and lv_port_indev.c
    (the gesture translator / encoder emulation);
  * `frameStep`, `framePath`, `SdCard.readBinFromSd`, `animTick` — the
    animation playback logic of `loop()` in main.cpp and the SD-card frame
    loader in sd_card.cpp;
  * `Display.setBackLight`, `Pixel.setBrightness`, `Pixel.setRGB` —
    display.cpp and rgb_led.cpp.

Machine integers are modelled as `Int`/`Nat`; the unsigned 32-bit wraparound
of `millis()` arithmetic is made explicit in `millisElapsed`.
-/

/-- LVGL input-device button state (`lv_indev_state_t`):
`LV_INDEV_STATE_PR` (pressed) or `LV_INDEV_STATE_REL` (released). -/
inductive LvIndevState where
  | pressed
  | released
deriving DecidableEq

/-- One raw 6-axis reading delivered by `imu.getMotion6` in `IMU::update`
(three `int16_t` accelerations, three `int16_t` angular rates). -/
structure MotionSample where
  ax : Int
  ay : Int
  az : Int
  gx : Int
  gy : Int
  gz : Int
deriving DecidableEq

/-- The mutable state touched by `IMU::update` in imu.cpp: the stored sample
members `ax..gz` of the `IMU` object, the member `flag` (debounce flag, C++
truthiness modelled as `Bool`) and `last_update_time` (milliseconds), plus the
globals `encoder_diff` (`int16_t`) and `encoder_state` shared with
lv_port_indev.c. -/
structure ImuState where
  ax : Int
  ay : Int
  az : Int
  gx : Int
  gy : Int
  gz : Int
  encoder_diff : Int
  encoder_state : LvIndevState
  flag : Bool
  last_update_time : Nat
deriving DecidableEq

/-- `millis() - last_update_time` as computed in `IMU::update`: unsigned
32-bit subtraction (wraps modulo `2 ^ 32`).  `now` and `last` are the two
`millis()`-derived values. -/
def millisElapsed (now last : Nat) : Nat :=
  (now % 2 ^ 32 + 2 ^ 32 - last % 2 ^ 32) % 2 ^ 32

/-- Shallow embedding of `IMU::update(int interval)` from imu.cpp.

The C++ body first calls `imu.getMotion6(&ax, ..., &gz)` unconditionally,
storing the fresh sample into the members, and only then checks the rate gate
`millis() - last_update_time > interval`.  Inside the gate it runs the
Y-axis rotation logic (thresholds `±3000` with debounce `flag`), the X-axis
press logic (threshold `10000`), and finally `last_update_time = millis()`.
Both `millis()` calls within one invocation are modelled as the same instant
`now`; `interval` is the `int` argument after its conversion to unsigned for
the comparison (the firmware passes `200`). -/
def IMU.update (s : ImuState) (m : MotionSample) (now : Nat) (interval : Nat) :
    ImuState :=
  let s1 : ImuState :=
    { s with ax := m.ax, ay := m.ay, az := m.az,
             gx := m.gx, gy := m.gy, gz := m.gz }
  if millisElapsed now s1.last_update_time > interval then
    let s2 : ImuState :=
      if s1.ay > 3000 ∧ s1.flag then
        { s1 with encoder_diff := s1.encoder_diff - 1, flag := false }
      else if s1.ay < -3000 ∧ s1.flag then
        { s1 with encoder_diff := s1.encoder_diff + 1, flag := false }
      else
        { s1 with flag := true }
    let s3 : ImuState :=
      if s2.ax > 10000 then { s2 with encoder_state := LvIndevState.pressed }
      else { s2 with encoder_state := LvIndevState.released }
    { s3 with last_update_time := now }
  else s1

/-- Run a sequence of `IMU::update` invocations; each element of the list is
the sample delivered by `getMotion6` together with the `millis()` value at
that invocation. -/
def IMU.runUpdates (interval : Nat) (s : ImuState) :
    List (MotionSample × Nat) → ImuState
  | [] => s
  | (m, t) :: rest => IMU.runUpdates interval (IMU.update s m t interval) rest

/-- The value of `encoder_diff` observed after each successive
`IMU::update` invocation of a run. -/
def IMU.diffTrace (interval : Nat) (s : ImuState) :
    List (MotionSample × Nat) → List Int
  | [] => []
  | (m, t) :: rest =>
      let s2 := IMU.update s m t interval
      s2.encoder_diff :: IMU.diffTrace interval s2 rest

/-- Per-invocation change of `encoder_diff` along a run (`-1` = one rotation
event in the decrement direction, `+1` = one in the increment direction,
`0` = no event on that invocation). -/
def IMU.eventDeltas (interval : Nat) (s : ImuState)
    (ms : List (MotionSample × Nat)) : List Int :=
  let tr := IMU.diffTrace interval s ms
  List.zipWith (fun a b => a - b) tr (s.encoder_diff :: tr)

/-- A motion sample whose only nonzero axis is the lateral axis `ay`,
convenient for exercising the rotation logic. -/
def aySample (v : Int) : MotionSample :=
  ⟨0, v, 0, 0, 0, 0⟩

/-- Shallow embedding of `encoder_read` from lv_port_indev.c: it copies
`encoder_diff` into `data->enc_diff` and `encoder_state` into `data->state`,
then resets `encoder_diff = 0` and returns `false`.  The result is the pair
written into `lv_indev_data_t`, the updated global state, and the C return
value. -/
def encoder_read (s : ImuState) : (Int × LvIndevState) × ImuState × Bool :=
  ((s.encoder_diff, s.encoder_state), { s with encoder_diff := 0 }, false)

/-- Shallow embedding of the connection wait in `IMU::init` from imu.cpp:
`while (!imu.testConnection());`.  `acks i` is the result of the `i`-th
`testConnection()` call; `IMU.initLoop acks n` is `true` exactly when the
busy-wait loop has exited within the first `n` iterations.  The C++ loop has
no iteration bound and no error return (`IMU::init` returns `void`). -/
def IMU.initLoop (acks : Nat → Bool) : Nat → Bool
  | 0 => false
  | n + 1 => IMU.initLoop acks n || acks n

/-- `IMU::init` terminates on the sensor behaviour `acks`: its busy-wait
loop exits after some finite number of iterations. -/
def IMU.initTerminates (acks : Nat → Bool) : Prop :=
  ∃ n, IMU.initLoop acks n = true

/-- The frame count of the animation sequence in `loop()` of main.cpp
(`frame000.bin .. frame137.bin`, reset `if (frame_id == 138) frame_id = 0`). -/
def frameCount : Nat := 138

/-- One step of the cyclic frame counter in `loop()` of main.cpp: the tick
uses the current `frame_id` in the path, then executes `frame_id++` followed
by `if (frame_id == 138) frame_id = 0;`.  `frame_id` is a C `int`
initialised to `0` and kept in `[0, 137]` by this logic, so it is modelled
as `Nat`. -/
def frameStep (id : Nat) : Nat :=
  if id + 1 = frameCount then 0 else id + 1

/-- `frame_id` after `n` animation ticks starting from its initial value 0. -/
def frameIdAfter : Nat → Nat
  | 0 => 0
  | n + 1 => frameStep (frameIdAfter n)

/-- Zero-padded three-digit rendering of a frame index, as produced by the
`%03d` conversion in `sprintf(buf, "S:/Scenes/Holo3D/frame%03d.bin", ...)`. -/
def pad3 (i : Nat) : String :=
  if i < 10 then "00" ++ toString i
  else if i < 100 then "0" ++ toString i
  else toString i

/-- The backing file path requested for frame index `i` in `loop()` of
main.cpp. -/
def framePath (i : Nat) : String :=
  "S:/Scenes/Holo3D/frame" ++ pad3 i ++ ".bin"

/-- Write `chunk` into `buf` starting at byte offset `off`, leaving the rest
of `buf` unchanged (the effect of one `file.read(bufPtr, toRead)` call in
`SdCard::readBinFromSd`, with `bufPtr = buf + off`). -/
def writeBytes (buf : List Nat) (off : Nat) (chunk : List Nat) : List Nat :=
  buf.take off ++ chunk ++ buf.drop (off + chunk.length)

/-- The chunked copy loop of `SdCard::readBinFromSd` in sd_card.cpp:
`while (len) { toRead = min(len, 512); file.read(bufPtr, toRead);
bufPtr += toRead; len -= toRead; }`, copying the file bytes `data` into the
destination buffer in blocks of at most 512 bytes. -/
def copyChunks (data : List Nat) (off : Nat) (buf : List Nat) : List Nat :=
  if h : data = [] then buf
  else
    copyChunks (data.drop 512) (off + min data.length 512)
      (writeBytes buf off (data.take 512))
termination_by data.length
decreasing_by
  simp only [List.length_drop]
  have : 0 < data.length := List.length_pos.mpr h
  omega

/-- Shallow embedding of `SdCard::readBinFromSd(const char* path,
uint8_t* buf)` from sd_card.cpp.  `fs` models the SD card: `fs path` is the
byte content of the file at `path`, or `none` when `SD.open` fails (the
`IoError::NotFound` case).  On success the whole file is copied into the
destination buffer in 512-byte chunks; on failure the function only prints a
message and the destination buffer is left untouched. -/
def SdCard.readBinFromSd (fs : String → Option (List Nat)) (path : String)
    (buf : List Nat) : List Nat :=
  match fs path with
  | some data => copyChunks data 0 buf
  | none => buf

/-- One animation tick of `loop()` in main.cpp (the playback block at
main.cpp lines 127-132, present in the source in disabled form): build the
path for the current `frame_id`, load that frame from storage into the
destination buffer (the repository's frame-loading primitive
`SdCard::readBinFromSd`), and advance the frame counter.  The counter
advance (`frame_id++` inside the `sprintf` call) happens unconditionally,
independent of the outcome of the load. -/
def animTick (fs : String → Option (List Nat)) (st : Nat × List Nat) :
    Nat × List Nat :=
  (frameStep st.1, SdCard.readBinFromSd fs (framePath st.1) st.2)

/-- The frame indices requested by `k` successive animation ticks starting
from state `st`. -/
def animIndices (fs : String → Option (List Nat)) (st : Nat × List Nat) :
    Nat → List Nat
  | 0 => []
  | k + 1 => st.1 :: animIndices fs (animTick fs st) k

/-- The Arduino `constrain(amt, low, high)` macro:
`(amt < low) ? low : ((amt > high) ? high : amt)`.  The `float` arithmetic
of the brightness setters is modelled over `ℚ`; every value the claims
compare is exactly representable, so no rounding is involved. -/
def constrain (x lo hi : ℚ) : ℚ :=
  if x < lo then lo else if x > hi then hi else x

/-- A C cast from a real value to an integer type: truncation toward zero. -/
def cppTrunc (q : ℚ) : Int :=
  if q < 0 then -(⌊-q⌋) else ⌊q⌋

/-- Shallow embedding of `Display::setBackLight(float duty)` from
display.cpp: clamp `duty` to `[0, 1]`, invert it (`duty = 1 - duty`, active
low), and write `(int)(duty * 255)` to the PWM channel.  The result is the
value passed to `ledcWrite`, the only observable effect. -/
def Display.setBackLight (duty : ℚ) : Int :=
  let d := constrain duty 0 1
  let d2 := 1 - d
  cppTrunc (d2 * 255)

/-- Shallow embedding of `Pixel::setBrightness(float duty)` from
rgb_led.cpp: clamp `duty` to `[0, 1]` and call
`FastLED.setBrightness((uint8_t)(255 * duty))` followed by `FastLED.show()`.
The result is the 8-bit brightness value handed to the LED driver, the only
state this call changes. -/
def Pixel.setBrightness (duty : ℚ) : Nat :=
  let d := constrain duty 0 1
  (cppTrunc (255 * d)).toNat % 256

/-- One WS2812 colour buffer entry (`CRGB`, three 8-bit components). -/
structure CRGB where
  r : Nat
  g : Nat
  b : Nat
deriving DecidableEq

/-- Number of LEDs, `RGB_LED_NUM`.  The value comes from the module header
rgb_led.h via the source comment in rgb_led.cpp (the board has 2 LEDs);
`color_buffers` is declared as `CRGB color_buffers[RGB_LED_NUM]`. -/
def RGB_LED_NUM : Nat := 2

/-- Conversion of a C `int` colour component to the stored 8-bit byte. -/
def byteOfInt (x : Int) : Nat :=
  (x % 256).toNat

/-- Total embedding of `Pixel::setRGB(int id, int r, int g, int b)` from
rgb_led.cpp.  The C++ body writes `color_buffers[id] = CRGB(r, g, b)` with
no bounds check on `id`; here the array write is total, returning `none`
exactly when the write would fall outside the `buffers` array. -/
def Pixel.setRGB (buffers : List CRGB) (id : Int) (r g b : Int) :
    Option (List CRGB) :=
  if 0 ≤ id ∧ id.toNat < buffers.length then
    some (buffers.set id.toNat ⟨byteOfInt r, byteOfInt g, byteOfInt b⟩)
  else none

/-- Initial translator state used by the scenario runs: all stored values
zero, no accumulated rotation, button released, debounce flag armed,
`last_update_time = 0`. -/
def scenarioStart : ImuState :=
  ⟨0, 0, 0, 0, 0, 0, 0, LvIndevState.released, true, 0⟩

/-- The end-to-end sample stream of the specification,
`ay = [0, 3500, 3600, 0, -3700, 0]`, delivered every 300 ms so that each
invocation passes the 200 ms rate gate. -/
def scenarioTrace : List (MotionSample × Nat) :=
  [(aySample 0, 300), (aySample 3500, 600), (aySample 3600, 900),
   (aySample 0, 1200), (aySample (-3700), 1500), (aySample 0, 1800)]

/-- A lateral-axis stream that crosses `+T = 3000` once and stays above it
for three consecutive gate-passing samples before returning to neutral. -/
def sustainedTrace : List (MotionSample × Nat) :=
  [(aySample 3500, 300), (aySample 3600, 600), (aySample 3600, 900),
   (aySample 0, 1200)]

/-- C1: the claim demands exactly one decrement of `encoder_diff` for a
stream that crosses `+T` once and then returns to the neutral band, no
matter how many consecutive samples stay above `T`.  The code violates
this: when `ay > 3000` and `flag == 0`, the `else` branch of `IMU::update`
sets `flag = 1`, re-arming the translator while the axis is still past the
threshold, so the stream `ay = [3500, 3600, 3600, 0]` fires twice
(`encoder_diff` ends at `-2`, with events on the first and third samples). -/
theorem imu_update_double_fire_on_sustained_tilt :
    (IMU.runUpdates 200 scenarioStart sustainedTrace).encoder_diff = -2 ∧
    IMU.eventDeltas 200 scenarioStart sustainedTrace = [-1, 0, -1, 0] := by
  decide

/-- C2: feeding `ay = [0, 3500, 3600, 0, -3700, 0]` through `IMU::update`
at the configured interval from an armed initial state produces the event
sequence [none, decrement, none, none, increment, none] — exactly two
rotation events over the six invocations. -/
theorem imu_update_scenario_trace :
    IMU.eventDeltas 200 scenarioStart scenarioTrace = [0, -1, 0, 0, 1, 0] ∧
    List.countP (fun d => d != 0)
      (IMU.eventDeltas 200 scenarioStart scenarioTrace) = 2 := by
  decide

/-- C3: `encoder_read` returns the currently accumulated `encoder_diff`
and `encoder_state`, then resets `encoder_diff` to 0 and leaves
`encoder_state` unchanged; a second immediate `encoder_read` therefore
reads `rotationDelta = 0` and the same button state as the first. -/
theorem encoder_read_read_and_clear (s : ImuState) :
    (encoder_read s).1.1 = s.encoder_diff ∧
    (encoder_read s).1.2 = s.encoder_state ∧
    (encoder_read s).2.1.encoder_diff = 0 ∧
    (encoder_read s).2.1.encoder_state = s.encoder_state ∧
    (encoder_read (encoder_read s).2.1).1.1 = 0 ∧
    (encoder_read (encoder_read s).2.1).1.2 = (encoder_read s).1.2 := by
  simp [encoder_read]

/-- C9: on every `IMU::update` invocation that passes the rate gate, the
button state is set to pressed exactly when the incoming forward-axis
acceleration exceeds `P = 10000`, and to released otherwise — for every
prior state, hence independently of `flag` and `encoder_diff`. -/
theorem press_detection_level_triggered (s : ImuState) (m : MotionSample)
    (now interval : Nat)
    (hgate : millisElapsed now s.last_update_time > interval) :
    (IMU.update s m now interval).encoder_state =
      (if m.ax > 10000 then LvIndevState.pressed
       else LvIndevState.released) := by
  unfold IMU.update
  rw [if_pos hgate]
  dsimp only
  split_ifs <;> rfl

/-- Witness for C9 at a concrete pressed input. -/
theorem press_detection_level_triggered_witness :
    millisElapsed 300 scenarioStart.last_update_time > 200 ∧
    (IMU.update scenarioStart ⟨20000, 0, 0, 0, 0, 0⟩ 300 200).encoder_state =
      (if (20000 : Int) > 10000 then LvIndevState.pressed
       else LvIndevState.released) :=
  ⟨by decide,
   press_detection_level_triggered scenarioStart ⟨20000, 0, 0, 0, 0, 0⟩
     300 200 (by decide)⟩

/-- C4 counterexample: an invocation arriving 100 ms after the last accepted
update (interval 200 ms) still overwrites the stored sample fields, because
`imu.getMotion6` runs before the rate gate — the claim that the entire
observable state is unchanged is false. -/
theorem imu_update_early_call_overwrites_sample :
    millisElapsed 1100 1000 ≤ 200 ∧
    (IMU.update ⟨0, 0, 0, 0, 0, 0, 0, LvIndevState.released, true, 1000⟩
        (aySample 5) 1100 200).ay ≠
      (⟨0, 0, 0, 0, 0, 0, 0, LvIndevState.released, true, 1000⟩ :
        ImuState).ay := by
  decide

/-- C4 (amended): a call arriving before the sampling interval has elapsed
leaves `encoder_diff`, `encoder_state`, the debounce flag and
`last_update_time` unchanged, but the stored sample fields `ax..gz` are
always overwritten with the incoming sample, since the sensor read precedes
the gate. -/
theorem imu_update_early_call_gesture_state_unchanged
    (s : ImuState) (m : MotionSample) (now interval : Nat)
    (hearly : millisElapsed now s.last_update_time ≤ interval) :
    (IMU.update s m now interval).encoder_diff = s.encoder_diff ∧
    (IMU.update s m now interval).encoder_state = s.encoder_state ∧
    (IMU.update s m now interval).flag = s.flag ∧
    (IMU.update s m now interval).last_update_time = s.last_update_time ∧
    (IMU.update s m now interval).ax = m.ax ∧
    (IMU.update s m now interval).ay = m.ay ∧
    (IMU.update s m now interval).az = m.az ∧
    (IMU.update s m now interval).gx = m.gx ∧
    (IMU.update s m now interval).gy = m.gy ∧
    (IMU.update s m now interval).gz = m.gz := by
  unfold IMU.update
  dsimp only
  rw [if_neg (not_lt.mpr hearly)]
  simp

/-- Witness for the amended C4 at a concrete early invocation. -/
theorem imu_update_early_call_gesture_state_unchanged_witness :
    millisElapsed 1100
        (⟨0, 0, 0, 0, 0, 0, 0, LvIndevState.released, true, 1000⟩ :
          ImuState).last_update_time ≤ 200 ∧
    ((IMU.update ⟨0, 0, 0, 0, 0, 0, 0, LvIndevState.released, true, 1000⟩
        (aySample 5) 1100 200).encoder_diff =
      (⟨0, 0, 0, 0, 0, 0, 0, LvIndevState.released, true, 1000⟩ :
        ImuState).encoder_diff ∧
     (IMU.update ⟨0, 0, 0, 0, 0, 0, 0, LvIndevState.released, true, 1000⟩
        (aySample 5) 1100 200).encoder_state =
      (⟨0, 0, 0, 0, 0, 0, 0, LvIndevState.released, true, 1000⟩ :
        ImuState).encoder_state ∧
     (IMU.update ⟨0, 0, 0, 0, 0, 0, 0, LvIndevState.released, true, 1000⟩
        (aySample 5) 1100 200).flag =
      (⟨0, 0, 0, 0, 0, 0, 0, LvIndevState.released, true, 1000⟩ :
        ImuState).flag ∧
     (IMU.update ⟨0, 0, 0, 0, 0, 0, 0, LvIndevState.released, true, 1000⟩
        (aySample 5) 1100 200).last_update_time =
      (⟨0, 0, 0, 0, 0, 0, 0, LvIndevState.released, true, 1000⟩ :
        ImuState).last_update_time ∧
     (IMU.update ⟨0, 0, 0, 0, 0, 0, 0, LvIndevState.released, true, 1000⟩
        (aySample 5) 1100 200).ax = (aySample 5).ax ∧
     (IMU.update ⟨0, 0, 0, 0, 0, 0, 0, LvIndevState.released, true, 1000⟩
        (aySample 5) 1100 200).ay = (aySample 5).ay ∧
     (IMU.update ⟨0, 0, 0, 0, 0, 0, 0, LvIndevState.released, true, 1000⟩
        (aySample 5) 1100 200).az = (aySample 5).az ∧
     (IMU.update ⟨0, 0, 0, 0, 0, 0, 0, LvIndevState.released, true, 1000⟩
        (aySample 5) 1100 200).gx = (aySample 5).gx ∧
     (IMU.update ⟨0, 0, 0, 0, 0, 0, 0, LvIndevState.released, true, 1000⟩
        (aySample 5) 1100 200).gy = (aySample 5).gy ∧
     (IMU.update ⟨0, 0, 0, 0, 0, 0, 0, LvIndevState.released, true, 1000⟩
        (aySample 5) 1100 200).gz = (aySample 5).gz) :=
  ⟨by decide,
   imu_update_early_call_gesture_state_unchanged
     ⟨0, 0, 0, 0, 0, 0, 0, LvIndevState.released, true, 1000⟩
     (aySample 5) 1100 200 (by decide)⟩

/-- C5 counterexample: with a sensor that never acknowledges, the busy-wait
loop of `IMU::init` never exits — initialization does not terminate and no
`SensorUnavailable` result is ever surfaced. -/
theorem imu_init_never_terminates_without_ack :
    ¬ IMU.initTerminates (fun _ => false) := by
  intro hterm
  obtain ⟨n, h⟩ := hterm
  have haux : ∀ k, IMU.initLoop (fun _ => false) k = false := by
    intro k
    induction k with
    | zero => rfl
    | succ j ih => simp [IMU.initLoop, ih]
  rw [haux n] at h
  exact Bool.false_ne_true h

/-- C5 (amended): `IMU::init` busy-waits on `testConnection()` with no
bound and no error result — the loop has exited within `n` iterations
exactly when one of the first `n` `testConnection()` calls acknowledged, so
a sensor that never acknowledges blocks initialization forever instead of
producing a `SensorUnavailable` error. -/
theorem imu_init_loop_exits_iff_ack (acks : Nat → Bool) (n : Nat) :
    IMU.initLoop acks n = true ↔ ∃ i < n, acks i = true := by
  induction n with
  | zero => simp [IMU.initLoop]
  | succ k ih =>
      simp only [IMU.initLoop, Bool.or_eq_true, ih]
      constructor
      · rintro (⟨i, hi, hai⟩ | hk)
        · exact ⟨i, Nat.lt_succ_of_lt hi, hai⟩
        · exact ⟨k, Nat.lt_succ_self k, hk⟩
      · rintro ⟨i, hi, hai⟩
        rcases Nat.lt_succ_iff_lt_or_eq.mp hi with h | h
        · exact Or.inl ⟨i, h, hai⟩
        · exact Or.inr (h ▸ hai)

/-- Auxiliary: the cyclic frame counter of `loop()` equals the tick number
modulo the frame count. -/
theorem frameIdAfter_eq_mod (n : Nat) : frameIdAfter n = n % frameCount := by
  induction n with
  | zero => rfl
  | succ k ih =>
      rw [frameIdAfter, frameStep, ih]
      simp only [frameCount]
      split_ifs with h
      · omega
      · omega

/-- C6: the main loop resolves the `n`-th animation tick to frame
`n % 138`; the counter never leaves `[0, 137]` (so every produced path is
one of `frame000.bin .. frame137.bin`), and the tick with cyclic index 138
requests the same backing file path as the tick with index 0. -/
theorem frame_loop_cyclic_wraparound (n : Nat) :
    frameIdAfter n = n % frameCount ∧
    frameIdAfter n < frameCount ∧
    framePath (frameIdAfter frameCount) = framePath (frameIdAfter 0) := by
  refine ⟨frameIdAfter_eq_mod n, ?_, ?_⟩
  · rw [frameIdAfter_eq_mod]
    exact Nat.mod_lt n (by simp [frameCount])
  · rw [frameIdAfter_eq_mod, frameIdAfter_eq_mod]
    norm_num [frameCount]

/-- C7 counterexample: with a persistent storage fault the three ticks
starting at frame index 50 request indices 50, 51, 52 — index 50 is
requested exactly once, so the tick never retries a failed index (the claim
says the same index is retried on subsequent ticks); the destination buffer
is nevertheless retained. -/
theorem anim_tick_no_retry_after_fault :
    animIndices (fun _ => none) (50, [7, 7]) 3 = [50, 51, 52] ∧
    (animIndices (fun _ => none) (50, [7, 7]) 3).count 50 = 1 ∧
    (animTick (fun _ => none) (50, [7, 7])).2 = [7, 7] := by
  decide

/-- C7 (amended): when the backing file for the current index is missing
(`IoError::NotFound`), the animation tick leaves the destination buffer
unchanged — the previously loaded frame is retained and nothing crashes —
and the frame counter advances unconditionally, so the next tick continues
from the next index with no retries of the failed one (the retry bound is
zero; a fault on index 50 leads directly to index 51). -/
theorem anim_tick_holds_buffer_and_advances
    (fs : String → Option (List Nat)) (id : Nat) (buf : List Nat)
    (hmiss : fs (framePath id) = none) :
    animTick fs (id, buf) = (frameStep id, buf) := by
  simp [animTick, SdCard.readBinFromSd, hmiss]

/-- Witness for the amended C7 at the faulted index 50. -/
theorem anim_tick_holds_buffer_and_advances_witness :
    (fun _ : String => (none : Option (List Nat))) (framePath 50) = none ∧
    animTick (fun _ => none) (50, [7, 7]) = (frameStep 50, [7, 7]) :=
  ⟨rfl, anim_tick_holds_buffer_and_advances (fun _ => none) 50 [7, 7] rfl⟩

/-- Auxiliary: the Arduino clamp at the top of both brightness setters maps
every duty above 1 to 1. -/
theorem constrain01_of_one_lt {d : ℚ} (h : 1 < d) : constrain d 0 1 = 1 := by
  unfold constrain
  rw [if_neg (by linarith), if_pos h]

/-- Auxiliary: the Arduino clamp maps every negative duty to 0. -/
theorem constrain01_of_lt_zero {d : ℚ} (h : d < 0) : constrain d 0 1 = 0 := by
  unfold constrain
  rw [if_pos h]

/-- C8: both brightness setters clamp out-of-range duty instead of
rejecting it — for any duty above 1 the backlight PWM write and the LED
brightness write equal those of duty 1, and for any negative duty they
equal those of duty 0. -/
theorem brightness_setters_clamp (d e : ℚ) (hd : 1 < d) (he : e < 0) :
    Display.setBackLight d = Display.setBackLight 1 ∧
    Pixel.setBrightness d = Pixel.setBrightness 1 ∧
    Display.setBackLight e = Display.setBackLight 0 ∧
    Pixel.setBrightness e = Pixel.setBrightness 0 := by
  have h1 : constrain d 0 1 = constrain 1 0 1 := by
    rw [constrain01_of_one_lt hd]
    norm_num [constrain]
  have h2 : constrain e 0 1 = constrain 0 0 1 := by
    rw [constrain01_of_lt_zero he]
    norm_num [constrain]
  refine ⟨?_, ?_, ?_, ?_⟩ <;>
    simp [Display.setBackLight, Pixel.setBrightness, h1, h2]

/-- Witness for C8 at the duties named by the specification, 1.5 and -0.2. -/
theorem brightness_setters_clamp_witness :
    (1 : ℚ) < 3 / 2 ∧ (-1 / 5 : ℚ) < 0 ∧
    (Display.setBackLight (3 / 2) = Display.setBackLight 1 ∧
     Pixel.setBrightness (3 / 2) = Pixel.setBrightness 1 ∧
     Display.setBackLight (-1 / 5) = Display.setBackLight 0 ∧
     Pixel.setBrightness (-1 / 5) = Pixel.setBrightness 0) :=
  ⟨by norm_num, by norm_num,
   brightness_setters_clamp (3 / 2) (-1 / 5) (by norm_num) (by norm_num)⟩

/-- C10: `Pixel::setRGB` has no bounds check on `id`; in the total
embedding the write lands inside the LED colour buffer exactly when
`0 ≤ id < RGB_LED_NUM`, so the out-of-bounds branch is reachable for every
`id` outside that range and every caller must supply an in-range index. -/
theorem setRGB_in_bounds_iff (buffers : List CRGB) (id r g b : Int)
    (hlen : buffers.length = RGB_LED_NUM) :
    (Pixel.setRGB buffers id r g b).isSome ↔
      0 ≤ id ∧ id < (RGB_LED_NUM : Int) := by
  have hlen2 : buffers.length = 2 := hlen
  have hcast : ((RGB_LED_NUM : Nat) : Int) = 2 := rfl
  unfold Pixel.setRGB
  rw [hlen2, hcast]
  split_ifs with h <;> simp <;> omega

/-- Witness for C10 on the two-LED buffer with the out-of-range index 5. -/
theorem setRGB_in_bounds_iff_witness :
    ([⟨0, 0, 0⟩, ⟨0, 0, 0⟩] : List CRGB).length = RGB_LED_NUM ∧
    ((Pixel.setRGB [⟨0, 0, 0⟩, ⟨0, 0, 0⟩] 5 1 2 3).isSome ↔
      0 ≤ (5 : Int) ∧ (5 : Int) < (RGB_LED_NUM : Int)) :=
  ⟨rfl, setRGB_in_bounds_iff [⟨0, 0, 0⟩, ⟨0, 0, 0⟩] 5 1 2 3 rfl⟩
